import Mathlib

/-!
Shallow embedding of the Vehiculo-Ruta fleet-management core
(`models.py` and `app.py`): entities, field validators, the
status-consistency operations (`iniciar_ruta`, `completar_ruta`,
`cancelar_ruta`, `cambiar_estado`), the SQLAlchemy `before_update`
listener on `Ruta`, vehicle deletion (`eliminar_vehiculo`) and the
reconciliation sweep (`validar_estados_consistentes`).

The database is a pair of tables, modelled as lists of records.  A
route-mutating engine operation is the Python method followed by the
`before_update` listener firing on the mutated route row (as happens at
session flush).  Failure is `Except.error`: the Python methods raise
before performing any mutation, so an error result carries no state.
Timestamps (`datetime.utcnow()`) are passed in as an explicit `now`
parameter in seconds; automatic bookkeeping columns
(`fecha_registro`, `fecha_actualizacion`) are omitted.
-/

/-- `Vehiculo.estado`: the validator admits exactly
`'Disponible'`, `'En Ruta'`, `'Mantenimiento'`. -/
inductive EstadoVehiculo where
  | Disponible
  | EnRuta
  | Mantenimiento
deriving DecidableEq, Repr

/-- `Ruta.estado`: the validator admits exactly
`'Programada'`, `'En curso'`, `'Completada'`, `'Cancelada'`. -/
inductive EstadoRuta where
  | Programada
  | EnCurso
  | Completada
  | Cancelada
deriving DecidableEq, Repr

/-- A row of the `vehiculos` table. -/
structure Vehiculo where
  id : Nat
  placa : String
  marca : String
  modelo : String
  anio : Int
  capacidad : Int
  estado : EstadoVehiculo
deriving DecidableEq, Repr

/-- A row of the `rutas` table.  `vehiculo_id` is the nullable foreign
key; `distancia` is exact-rational in place of the Python float;
`fecha_inicio`/`fecha_fin` are timestamps in seconds. -/
structure Ruta where
  id : Nat
  nombre : String
  origen : String
  destino : String
  distancia : Rat
  tiempo_estimado : Int
  vehiculo_id : Option Nat
  estado : EstadoRuta
  fecha_inicio : Option Int
  fecha_fin : Option Int
deriving DecidableEq, Repr

/-- The database state: the two tables. -/
structure DB where
  vehiculos : List Vehiculo
  rutas : List Ruta
deriving DecidableEq, Repr

/-- Primary-key lookup on `vehiculos`. -/
def findVehiculo (s : DB) (vid : Nat) : Option Vehiculo :=
  s.vehiculos.find? (fun v => v.id == vid)

/-- Primary-key lookup on `rutas`. -/
def findRuta (s : DB) (rid : Nat) : Option Ruta :=
  s.rutas.find? (fun r => r.id == rid)

/-- The `vehiculo_asignado` backref of a route: resolve the nullable
foreign key. -/
def vehiculoAsignado (s : DB) (r : Ruta) : Option Vehiculo :=
  r.vehiculo_id.bind (findVehiculo s)

/-- Overwrite the `estado` column of the vehicle with the given id. -/
def setVehEstado (s : DB) (vid : Nat) (e : EstadoVehiculo) : DB :=
  { s with vehiculos := s.vehiculos.map fun v =>
      if v.id = vid then { v with estado := e } else v }

/-- Apply `f` to the route row with the given id. -/
def updRuta (s : DB) (rid : Nat) (f : Ruta → Ruta) : DB :=
  { s with rutas := s.rutas.map fun r => if r.id = rid then f r else r }

/-- `any(ruta.estado == 'En curso' for ruta in self.rutas)` over a
routes table, for vehicle id `vid`. -/
def rutasActivasDe (rs : List Ruta) (vid : Nat) : Bool :=
  rs.any fun r => r.vehiculo_id == some vid && r.estado == EstadoRuta.EnCurso

/-- `Vehiculo.tiene_rutas_activas` (models.py line 53). -/
def tiene_rutas_activas (s : DB) (vid : Nat) : Bool :=
  rutasActivasDe s.rutas vid

/-- The count query used by the event listeners (models.py lines
197-201): routes of the same vehicle that are `'En curso'` and are not
the row being flushed. -/
def rutasActivasOtras (rs : List Ruta) (vidOpt : Option Nat) (rid : Nat) : Nat :=
  (rs.filter fun r =>
    r.vehiculo_id == vidOpt && r.estado == EstadoRuta.EnCurso && r.id != rid).length

/-- `ruta_before_update` (models.py lines 187-204): fired on the route
row `rid` at flush time.  If the route is `'En curso'`, force its
vehicle to `'En Ruta'`; if it is terminal, set the vehicle to
`'Disponible'` when no other `'En curso'` route references it. -/
def ruta_before_update (s : DB) (rid : Nat) : DB :=
  match findRuta s rid with
  | none => s
  | some target =>
    if target.estado = EstadoRuta.EnCurso then
      match vehiculoAsignado s target with
      | some v => setVehEstado s v.id EstadoVehiculo.EnRuta
      | none => s
    else if target.estado = EstadoRuta.Completada ∨ target.estado = EstadoRuta.Cancelada then
      match vehiculoAsignado s target with
      | some v =>
        if rutasActivasOtras s.rutas target.vehiculo_id target.id = 0 then
          setVehEstado s v.id EstadoVehiculo.Disponible
        else s
      | none => s
    else s

/-- The field writes of `iniciar_ruta` on the route row. -/
def fInicia (now : Int) (r : Ruta) : Ruta :=
  { r with estado := EstadoRuta.EnCurso, fecha_inicio := some now }

/-- The field writes of `completar_ruta` on the route row. -/
def fCompleta (now : Int) (r : Ruta) : Ruta :=
  { r with estado := EstadoRuta.Completada, fecha_fin := some now }

/-- The field write of `cancelar_ruta` on the route row. -/
def fCancela (r : Ruta) : Ruta :=
  { r with estado := EstadoRuta.Cancelada }

/-- `Ruta.iniciar_ruta` (models.py lines 145-159): the raising guards,
then the mutations.  An error result models the `ValueError` raised
before any field is touched. -/
def iniciar_ruta (s : DB) (rid : Nat) (now : Int) : Except String DB :=
  match findRuta s rid with
  | none => Except.error "404 Not Found"
  | some r =>
    if r.estado ≠ EstadoRuta.Programada then
      Except.error "Solo se pueden iniciar rutas programadas"
    else
      match vehiculoAsignado s r with
      | some v =>
        if v.estado ≠ EstadoVehiculo.Disponible then
          Except.error "El vehículo asignado no está disponible"
        else
          Except.ok (setVehEstado (updRuta s rid (fInicia now)) v.id EstadoVehiculo.EnRuta)
      | none =>
        Except.ok (updRuta s rid (fInicia now))

/-- `Ruta.completar_ruta` (models.py lines 161-172): only `'En curso'`
routes may complete; the vehicle, when assigned, is set `'Disponible'`
unconditionally. -/
def completar_ruta (s : DB) (rid : Nat) (now : Int) : Except String DB :=
  match findRuta s rid with
  | none => Except.error "404 Not Found"
  | some r =>
    if r.estado ≠ EstadoRuta.EnCurso then
      Except.error "Solo se pueden completar rutas en curso"
    else
      let s1 := updRuta s rid (fCompleta now)
      match vehiculoAsignado s r with
      | some v => Except.ok (setVehEstado s1 v.id EstadoVehiculo.Disponible)
      | none => Except.ok s1

/-- `Ruta.cancelar_ruta` (models.py lines 174-181): no status guard at
all; the vehicle is released exactly when its current status is
`'En Ruta'`.  (The unused `razon` parameter is dropped.) -/
def cancelar_ruta (s : DB) (rid : Nat) : Except String DB :=
  match findRuta s rid with
  | none => Except.error "404 Not Found"
  | some r =>
    let s1 := updRuta s rid fCancela
    match vehiculoAsignado s r with
    | some v =>
      if v.estado = EstadoVehiculo.EnRuta then
        Except.ok (setVehEstado s1 v.id EstadoVehiculo.Disponible)
      else Except.ok s1
    | none => Except.ok s1

/-- `Vehiculo.cambiar_estado` (models.py lines 71-81): with
`validar_logica` the two business guards, then the assignment. -/
def cambiar_estado (s : DB) (vid : Nat) (nuevo : EstadoVehiculo)
    (validar_logica : Bool) : Except String DB :=
  match findVehiculo s vid with
  | none => Except.error "404 Not Found"
  | some _ =>
    if validar_logica ∧ nuevo = EstadoVehiculo.Disponible ∧ tiene_rutas_activas s vid then
      Except.error "No se puede marcar como disponible un vehículo con rutas activas"
    else if validar_logica ∧ nuevo = EstadoVehiculo.EnRuta ∧ ¬ tiene_rutas_activas s vid then
      Except.error "No se puede marcar en ruta un vehículo sin rutas activas"
    else
      Except.ok (setVehEstado s vid nuevo)

/-- Engine operation `start_route`: `iniciar_ruta` followed by the
`before_update` listener firing on the flushed route row. -/
def start_route (s : DB) (rid : Nat) (now : Int) : Except String DB :=
  (iniciar_ruta s rid now).map (fun s1 => ruta_before_update s1 rid)

/-- Engine operation `complete_route`: `completar_ruta` followed by the
`before_update` listener. -/
def complete_route (s : DB) (rid : Nat) (now : Int) : Except String DB :=
  (completar_ruta s rid now).map (fun s1 => ruta_before_update s1 rid)

/-- Engine operation `cancel_route`: `cancelar_ruta` followed by the
`before_update` listener. -/
def cancel_route (s : DB) (rid : Nat) : Except String DB :=
  (cancelar_ruta s rid).map (fun s1 => ruta_before_update s1 rid)

/-- Engine operation `set_vehicle_status`: `cambiar_estado` with
business validation on (no route row changes, so no listener fires). -/
def set_vehicle_status (s : DB) (vid : Nat) (nuevo : EstadoVehiculo) : Except String DB :=
  cambiar_estado s vid nuevo true

/-- `eliminar_vehiculo` (app.py lines 440-465): refuse when the vehicle
has an active route, then when it has any associated route; otherwise
delete it (the relationship cascade would also delete its routes, which
the second guard has made an empty set). -/
def eliminar_vehiculo (s : DB) (vid : Nat) : Except String DB :=
  match findVehiculo s vid with
  | none => Except.error "404 Not Found"
  | some _ =>
    if tiene_rutas_activas s vid then
      Except.error "No se puede eliminar un vehículo con rutas activas"
    else if s.rutas.any (fun r => r.vehiculo_id == some vid) then
      Except.error "No se puede eliminar un vehículo que tiene rutas asociadas"
    else
      Except.ok
        { vehiculos := s.vehiculos.filter fun v => v.id != vid
          rutas := s.rutas.filter fun r => r.vehiculo_id != some vid }

/-- The count query of reconciliation pass (b) (app.py lines 484-487). -/
def countActivas (rs : List Ruta) (vid : Nat) : Nat :=
  (rs.filter fun r => r.vehiculo_id == some vid && r.estado == EstadoRuta.EnCurso).length

/-- `validar_estados_consistentes` (app.py lines 468-498), the
reconciliation sweep: pass (a) forces vehicles having an `'En curso'`
route to `'En Ruta'`; pass (b) releases `'En Ruta'` vehicles whose
`'En curso'` route count is zero. -/
def validar_estados_consistentes (s : DB) : DB :=
  let s1 : DB := { s with vehiculos := s.vehiculos.map fun v =>
      if tiene_rutas_activas s v.id ∧ v.estado ≠ EstadoVehiculo.EnRuta then
        { v with estado := EstadoVehiculo.EnRuta }
      else v }
  { s1 with vehiculos := s1.vehiculos.map fun v =>
      if v.estado = EstadoVehiculo.EnRuta ∧ countActivas s1.rutas v.id = 0 then
        { v with estado := EstadoVehiculo.Disponible }
      else v }

/-- The §3 invariant: a vehicle is `'En Ruta'` exactly when at least one
of its routes is `'En curso'`. -/
def inv (s : DB) : Prop :=
  ∀ v ∈ s.vehiculos,
    (v.estado = EstadoVehiculo.EnRuta ↔ rutasActivasDe s.rutas v.id = true)

/-- Well-formed table state: unique primary keys, and at most one
`'En curso'` route per existing vehicle (§3: "at most one of a
Vehicle's Routes may be InProgress at any instant"). -/
def wf (s : DB) : Prop :=
  (s.vehiculos.map Vehiculo.id).Nodup ∧ (s.rutas.map Ruta.id).Nodup ∧
  ∀ v ∈ s.vehiculos, ∀ r1 ∈ s.rutas, ∀ r2 ∈ s.rutas,
    r1.vehiculo_id = some v.id → r1.estado = EstadoRuta.EnCurso →
    r2.vehiculo_id = some v.id → r2.estado = EstadoRuta.EnCurso → r1 = r2

instance (s : DB) : Decidable (inv s) := by
  unfold inv; infer_instance

instance (s : DB) : Decidable (wf s) := by
  unfold wf; infer_instance

/-- `Ruta.duracion_real` (models.py lines 123-129): defined when both
timestamps are set; `int(delta.total_seconds() / 60)` truncates toward
zero, which is `Int.tdiv`. -/
def duracion_real (r : Ruta) : Option Int :=
  match r.fecha_inicio, r.fecha_fin with
  | some i, some f => some (Int.tdiv (f - i) 60)
  | _, _ => none

/-- Python's `round(x, 2)`; nearest-integer rounding of hundredths (the
half-to-even tie behavior of the float original is abstracted to
nearest-integer rounding, which no claim depends on). -/
def round2 (q : Rat) : Rat :=
  (round (q * 100) : Int) / 100

/-- `Ruta.velocidad_promedio` (models.py lines 131-137): the Python
`if duracion:` truthiness test is false exactly on `None` and `0`. -/
def velocidad_promedio (r : Ruta) : Option Rat :=
  match duracion_real r with
  | some d => if d ≠ 0 then some (round2 (r.distancia / ((d : Rat) / 60))) else none
  | none => none

/-- Python `str.upper()` on the basic-latin range, as a per-character map. -/
def pyUpper (s : String) : String :=
  String.mk (s.data.map Char.toUpper)

/-- Strip leading and trailing whitespace from a character list. -/
def stripChars (l : List Char) : List Char :=
  (((l.dropWhile Char.isWhitespace).reverse).dropWhile Char.isWhitespace).reverse

/-- Python `str.strip()`. -/
def pyStrip (s : String) : String :=
  String.mk (stripChars s.data)

/-- `Vehiculo.validate_placa` (models.py lines 26-30): length checks on
the raw input, then `value.upper().strip()` on acceptance. -/
def validate_placa (value : String) : Except String String :=
  if value.length = 0 ∨ value.length < 6 ∨ value.length > 8 then
    Except.error "La placa debe tener entre 6 y 8 caracteres"
  else
    Except.ok (pyStrip (pyUpper value))

/-! ### Helper lemmas about the table primitives -/

theorem findVehiculo_eq_some {s : DB} {vid : Nat} {v : Vehiculo}
    (h : findVehiculo s vid = some v) : v ∈ s.vehiculos ∧ v.id = vid := by
  refine ⟨List.mem_of_find?_eq_some h, ?_⟩
  have := List.find?_some h
  simpa using this

theorem findRuta_eq_some {s : DB} {rid : Nat} {r : Ruta}
    (h : findRuta s rid = some r) : r ∈ s.rutas ∧ r.id = rid := by
  refine ⟨List.mem_of_find?_eq_some h, ?_⟩
  have := List.find?_some h
  simpa using this

theorem setVehEstado_rutas (s : DB) (vid : Nat) (e : EstadoVehiculo) :
    (setVehEstado s vid e).rutas = s.rutas := rfl

theorem updRuta_vehiculos (s : DB) (rid : Nat) (f : Ruta → Ruta) :
    (updRuta s rid f).vehiculos = s.vehiculos := rfl

theorem findVehiculo_setVehEstado (s : DB) (vid wid : Nat) (e : EstadoVehiculo) :
    findVehiculo (setVehEstado s vid e) wid =
      (findVehiculo s wid).map (fun v => if v.id = vid then { v with estado := e } else v) := by
  unfold findVehiculo setVehEstado
  dsimp only
  rw [List.find?_map]
  have hp : ((fun v : Vehiculo => v.id == wid) ∘
      fun v => if v.id = vid then { v with estado := e } else v) =
      (fun v : Vehiculo => v.id == wid) := by
    funext v
    by_cases h : v.id = vid <;> simp [h]
  rw [hp]

theorem findRuta_updRuta (s : DB) (rid rid' : Nat) (f : Ruta → Ruta)
    (hf : ∀ r, (f r).id = r.id) :
    findRuta (updRuta s rid f) rid' =
      (findRuta s rid').map (fun r => if r.id = rid then f r else r) := by
  unfold findRuta updRuta
  dsimp only
  rw [List.find?_map]
  have hp : ((fun r : Ruta => r.id == rid') ∘ fun r => if r.id = rid then f r else r) =
      (fun r : Ruta => r.id == rid') := by
    funext r
    by_cases h : r.id = rid <;> simp [h, hf]
  rw [hp]

theorem findRuta_setVehEstado (s : DB) (vid : Nat) (e : EstadoVehiculo) (rid : Nat) :
    findRuta (setVehEstado s vid e) rid = findRuta s rid := rfl

theorem findVehiculo_updRuta (s : DB) (rid : Nat) (f : Ruta → Ruta) (vid : Nat) :
    findVehiculo (updRuta s rid f) vid = findVehiculo s vid := rfl

theorem setVehEstado_setVehEstado (s : DB) (vid : Nat) (e : EstadoVehiculo) :
    setVehEstado (setVehEstado s vid e) vid e = setVehEstado s vid e := by
  unfold setVehEstado
  simp only [List.map_map]
  congr 1
  apply List.map_congr_left
  intro v _
  by_cases h : v.id = vid <;> simp [h]

theorem rutasActivasDe_iff (rs : List Ruta) (vid : Nat) :
    rutasActivasDe rs vid = true ↔
      ∃ r ∈ rs, r.vehiculo_id = some vid ∧ r.estado = EstadoRuta.EnCurso := by
  unfold rutasActivasDe
  simp [List.any_eq_true]

theorem countActivas_eq_zero_iff (rs : List Ruta) (vid : Nat) :
    countActivas rs vid = 0 ↔ rutasActivasDe rs vid = false := by
  unfold countActivas rutasActivasDe
  rw [List.length_eq_zero, List.filter_eq_nil_iff]
  rw [show (rs.any fun r => r.vehiculo_id == some vid && r.estado == EstadoRuta.EnCurso) = false
        ↔ ∀ r ∈ rs, ¬(r.vehiculo_id == some vid && r.estado == EstadoRuta.EnCurso) = true
      from by simp [List.any_eq_true]]

theorem rutasActivasOtras_eq_zero_iff (rs : List Ruta) (vidOpt : Option Nat) (rid : Nat) :
    rutasActivasOtras rs vidOpt rid = 0 ↔
      ∀ r ∈ rs, r.vehiculo_id = vidOpt → r.estado = EstadoRuta.EnCurso → r.id = rid := by
  unfold rutasActivasOtras
  rw [List.length_eq_zero, List.filter_eq_nil_iff]
  constructor
  · intro h r hr h1 h2
    have := h r hr
    simp only [Bool.and_eq_true, beq_iff_eq, bne_iff_ne, ne_eq, not_and, not_not] at this
    exact this ⟨h1, h2⟩
  · intro h r hr
    simp only [Bool.and_eq_true, beq_iff_eq, bne_iff_ne, ne_eq, not_and, not_not]
    intro hand
    exact h r hr hand.1 hand.2

theorem fInicia_id (now : Int) (r : Ruta) : (fInicia now r).id = r.id := rfl

theorem fCompleta_id (now : Int) (r : Ruta) : (fCompleta now r).id = r.id := rfl

theorem fCancela_id (r : Ruta) : (fCancela r).id = r.id := rfl

theorem ruta_before_update_rutas (s : DB) (rid : Nat) :
    (ruta_before_update s rid).rutas = s.rutas := by
  unfold ruta_before_update
  split
  · rfl
  · split
    · split <;> rfl
    · split
      · split
        · split <;> rfl
        · rfl
      · rfl

theorem vehiculoAsignado_some {s : DB} {r : Ruta} {k : Nat} {v : Vehiculo}
    (hvid : r.vehiculo_id = some k) (hv : findVehiculo s k = some v) :
    vehiculoAsignado s r = some v := by
  unfold vehiculoAsignado
  rw [hvid]
  exact hv

theorem start_route_spec (s : DB) (rid : Nat) (now : Int) (r0 : Ruta) (k : Nat) (v : Vehiculo)
    (hr : findRuta s rid = some r0) (hest : r0.estado = EstadoRuta.Programada)
    (hvid : r0.vehiculo_id = some k) (hv : findVehiculo s k = some v)
    (hvd : v.estado = EstadoVehiculo.Disponible) :
    start_route s rid now =
      Except.ok (setVehEstado (updRuta s rid (fInicia now)) v.id EstadoVehiculo.EnRuta) := by
  have hvk : v.id = k := (findVehiculo_eq_some hv).2
  have hrid : r0.id = rid := (findRuta_eq_some hr).2
  have hva : vehiculoAsignado s r0 = some v := vehiculoAsignado_some hvid hv
  set X := setVehEstado (updRuta s rid (fInicia now)) v.id EstadoVehiculo.EnRuta with hX
  have h1 : iniciar_ruta s rid now = Except.ok X := by
    unfold iniciar_ruta
    rw [hr]
    simp only [hest, hva, hvd]
    rfl
  have h2 : findRuta X rid = some (fInicia now r0) := by
    rw [hX, findRuta_setVehEstado, findRuta_updRuta s rid rid (fInicia now) (fInicia_id now), hr]
    simp [hrid]
  have h3 : findVehiculo X k = some { v with estado := EstadoVehiculo.EnRuta } := by
    rw [hX, findVehiculo_setVehEstado, findVehiculo_updRuta, hv]
    simp [hvk]
  have hva2 : vehiculoAsignado X (fInicia now r0) =
      some { v with estado := EstadoVehiculo.EnRuta } := by
    unfold vehiculoAsignado
    have hk : (fInicia now r0).vehiculo_id = some k := hvid
    rw [hk]
    exact h3
  have h4 : ruta_before_update X rid = X := by
    unfold ruta_before_update
    rw [h2]
    dsimp only
    rw [if_pos (show (fInicia now r0).estado = EstadoRuta.EnCurso from rfl)]
    rw [hva2]
    show setVehEstado X v.id EstadoVehiculo.EnRuta = X
    rw [hX]
    exact setVehEstado_setVehEstado _ _ _
  unfold start_route
  rw [h1]
  simp [Except.map, h4]

theorem complete_route_spec (s : DB) (rid : Nat) (now : Int) (r0 : Ruta) (k : Nat) (v : Vehiculo)
    (hr : findRuta s rid = some r0) (hest : r0.estado = EstadoRuta.EnCurso)
    (hvid : r0.vehiculo_id = some k) (hv : findVehiculo s k = some v) :
    complete_route s rid now =
      Except.ok (setVehEstado (updRuta s rid (fCompleta now)) v.id EstadoVehiculo.Disponible) := by
  have hvk : v.id = k := (findVehiculo_eq_some hv).2
  have hrid : r0.id = rid := (findRuta_eq_some hr).2
  have hva : vehiculoAsignado s r0 = some v := vehiculoAsignado_some hvid hv
  set X := setVehEstado (updRuta s rid (fCompleta now)) v.id EstadoVehiculo.Disponible with hX
  have h1 : completar_ruta s rid now = Except.ok X := by
    unfold completar_ruta
    rw [hr]
    simp only [hest, hva]
    rfl
  have h2 : findRuta X rid = some (fCompleta now r0) := by
    rw [hX, findRuta_setVehEstado, findRuta_updRuta s rid rid (fCompleta now) (fCompleta_id now), hr]
    simp [hrid]
  have h3 : findVehiculo X k = some { v with estado := EstadoVehiculo.Disponible } := by
    rw [hX, findVehiculo_setVehEstado, findVehiculo_updRuta, hv]
    simp [hvk]
  have hva2 : vehiculoAsignado X (fCompleta now r0) =
      some { v with estado := EstadoVehiculo.Disponible } := by
    unfold vehiculoAsignado
    have hk : (fCompleta now r0).vehiculo_id = some k := hvid
    rw [hk]
    exact h3
  have h4 : ruta_before_update X rid = X := by
    unfold ruta_before_update
    rw [h2]
    dsimp only
    have hfe : (fCompleta now r0).estado = EstadoRuta.Completada := rfl
    rw [if_neg (show ¬(fCompleta now r0).estado = EstadoRuta.EnCurso from by rw [hfe]; simp)]
    rw [if_pos (Or.inl hfe)]
    rw [hva2]
    dsimp only
    split
    · show setVehEstado X v.id EstadoVehiculo.Disponible = X
      rw [hX]
      exact setVehEstado_setVehEstado _ _ _
    · rfl
  unfold complete_route
  rw [h1]
  simp [Except.map, h4]

theorem findRuta_ruta_before_update (t : DB) (rid rid' : Nat) :
    findRuta (ruta_before_update t rid) rid' = findRuta t rid' := by
  unfold findRuta
  rw [ruta_before_update_rutas]

theorem start_route_spec_noveh (s : DB) (rid : Nat) (now : Int) (r0 : Ruta)
    (hr : findRuta s rid = some r0) (hest : r0.estado = EstadoRuta.Programada)
    (hva : vehiculoAsignado s r0 = none) :
    start_route s rid now = Except.ok (updRuta s rid (fInicia now)) := by
  have hrid : r0.id = rid := (findRuta_eq_some hr).2
  set X := updRuta s rid (fInicia now) with hX
  have h1 : iniciar_ruta s rid now = Except.ok X := by
    unfold iniciar_ruta
    rw [hr]
    simp only [hest, hva]
    rfl
  have h2 : findRuta X rid = some (fInicia now r0) := by
    rw [hX, findRuta_updRuta s rid rid (fInicia now) (fInicia_id now), hr]
    simp [hrid]
  have hva2 : vehiculoAsignado X (fInicia now r0) = none := by
    unfold vehiculoAsignado
    have hfun : findVehiculo X = findVehiculo s := by
      funext wid
      exact findVehiculo_updRuta s rid (fInicia now) wid
    show (fInicia now r0).vehiculo_id.bind (findVehiculo X) = none
    have hk : (fInicia now r0).vehiculo_id = r0.vehiculo_id := rfl
    rw [hk, hfun]
    exact hva
  have h4 : ruta_before_update X rid = X := by
    unfold ruta_before_update
    rw [h2]
    dsimp only
    rw [if_pos (show (fInicia now r0).estado = EstadoRuta.EnCurso from rfl)]
    rw [hva2]
  unfold start_route
  rw [h1]
  simp [Except.map, h4]

theorem complete_route_spec_noveh (s : DB) (rid : Nat) (now : Int) (r0 : Ruta)
    (hr : findRuta s rid = some r0) (hest : r0.estado = EstadoRuta.EnCurso)
    (hva : vehiculoAsignado s r0 = none) :
    complete_route s rid now = Except.ok (updRuta s rid (fCompleta now)) := by
  have hrid : r0.id = rid := (findRuta_eq_some hr).2
  set X := updRuta s rid (fCompleta now) with hX
  have h1 : completar_ruta s rid now = Except.ok X := by
    unfold completar_ruta
    rw [hr]
    simp only [hest, hva]
    rfl
  have h2 : findRuta X rid = some (fCompleta now r0) := by
    rw [hX, findRuta_updRuta s rid rid (fCompleta now) (fCompleta_id now), hr]
    simp [hrid]
  have hva2 : vehiculoAsignado X (fCompleta now r0) = none := by
    unfold vehiculoAsignado
    have hfun : findVehiculo X = findVehiculo s := by
      funext wid
      exact findVehiculo_updRuta s rid (fCompleta now) wid
    show (fCompleta now r0).vehiculo_id.bind (findVehiculo X) = none
    have hk : (fCompleta now r0).vehiculo_id = r0.vehiculo_id := rfl
    rw [hk, hfun]
    exact hva
  have h4 : ruta_before_update X rid = X := by
    unfold ruta_before_update
    rw [h2]
    dsimp only
    have hfe : (fCompleta now r0).estado = EstadoRuta.Completada := rfl
    rw [if_neg (show ¬(fCompleta now r0).estado = EstadoRuta.EnCurso from by rw [hfe]; simp)]
    rw [if_pos (Or.inl hfe)]
    rw [hva2]
  unfold complete_route
  rw [h1]
  simp [Except.map, h4]

theorem cancel_route_ok (s : DB) (rid : Nat) (r0 : Ruta)
    (hr : findRuta s rid = some r0) :
    ∃ s', cancel_route s rid = Except.ok s' ∧ findRuta s' rid = some (fCancela r0) := by
  have hrid : r0.id = rid := (findRuta_eq_some hr).2
  have hfind : findRuta (updRuta s rid fCancela) rid = some (fCancela r0) := by
    rw [findRuta_updRuta s rid rid fCancela fCancela_id, hr]
    simp [hrid]
  unfold cancel_route cancelar_ruta
  rw [hr]
  dsimp only
  cases hva : vehiculoAsignado s r0 with
  | none =>
    refine ⟨_, rfl, ?_⟩
    rw [findRuta_ruta_before_update]
    exact hfind
  | some v =>
    dsimp only
    by_cases hv : v.estado = EstadoVehiculo.EnRuta
    · rw [if_pos hv]
      refine ⟨_, rfl, ?_⟩
      rw [findRuta_ruta_before_update, findRuta_setVehEstado]
      exact hfind
    · rw [if_neg hv]
      refine ⟨_, rfl, ?_⟩
      rw [findRuta_ruta_before_update]
      exact hfind

theorem map_id_of {α : Type} (l : List α) (f : α → α) (h : ∀ a ∈ l, f a = a) :
    l.map f = l := by
  induction l with
  | nil => rfl
  | cons a t ih =>
    rw [List.map_cons, h a (List.mem_cons_self a t), ih]
    intro b hb
    exact h b (List.mem_cons_of_mem a hb)

theorem countActivas_ne_zero {rs : List Ruta} {vid : Nat}
    (hA : rutasActivasDe rs vid = true) : ¬ countActivas rs vid = 0 := by
  rw [countActivas_eq_zero_iff]
  simp [hA]

/-- The reconciliation sweep establishes the status invariant on any
table state. -/
theorem inv_validar (s : DB) : inv (validar_estados_consistentes s) := by
  intro v' hmem
  have hrutas : (validar_estados_consistentes s).rutas = s.rutas := rfl
  rw [hrutas]
  simp only [validar_estados_consistentes] at hmem
  rw [List.map_map] at hmem
  obtain ⟨v, hv, hveq⟩ := List.mem_map.mp hmem
  subst hveq
  simp only [Function.comp]
  by_cases hA : rutasActivasDe s.rutas v.id = true
  · have hc := countActivas_ne_zero hA
    by_cases hEn : v.estado = EstadoVehiculo.EnRuta
    · simp [tiene_rutas_activas, hA, hEn, hc]
    · simp [tiene_rutas_activas, hA, hEn, hc]
  · have hA' : rutasActivasDe s.rutas v.id = false := by
      cases h : rutasActivasDe s.rutas v.id
      · rfl
      · exact absurd h hA
    have hc0 : countActivas s.rutas v.id = 0 := (countActivas_eq_zero_iff _ _).mpr hA'
    by_cases hEn : v.estado = EstadoVehiculo.EnRuta
    · simp [tiene_rutas_activas, hA', hEn, hc0]
    · simp [tiene_rutas_activas, hA', hEn, hc0]

/-- On a state already satisfying the invariant the sweep is the
identity. -/
theorem validar_of_inv (t : DB) (h : inv t) : validar_estados_consistentes t = t := by
  conv_rhs => rw [show t = DB.mk t.vehiculos t.rutas from rfl]
  simp only [validar_estados_consistentes]
  rw [List.map_map]
  congr 1
  apply map_id_of
  intro v hv
  simp only [Function.comp]
  by_cases hA : rutasActivasDe t.rutas v.id = true
  · have hEn : v.estado = EstadoVehiculo.EnRuta := (h v hv).mpr hA
    have hc := countActivas_ne_zero hA
    simp [tiene_rutas_activas, hA, hEn, hc]
  · have hEn : ¬ v.estado = EstadoVehiculo.EnRuta := fun hcon => hA ((h v hv).mp hcon)
    have hA' : rutasActivasDe t.rutas v.id = false := by
      cases hb : rutasActivasDe t.rutas v.id
      · rfl
      · exact absurd hb hA
    simp [tiene_rutas_activas, hA', hEn]

theorem activas_map_iff (rs : List Ruta) (g : Ruta → Ruta) (w : Nat) :
    rutasActivasDe (rs.map g) w = true ↔
      ∃ r ∈ rs, (g r).vehiculo_id = some w ∧ (g r).estado = EstadoRuta.EnCurso := by
  unfold rutasActivasDe
  rw [List.any_map]
  simp [List.any_eq_true, Function.comp]

theorem eq_of_mem_ruta_id {rs : List Ruta} (hnd : (rs.map Ruta.id).Nodup)
    {a b : Ruta} (ha : a ∈ rs) (hb : b ∈ rs) (h : a.id = b.id) : a = b :=
  List.inj_on_of_nodup_map hnd ha hb h

theorem map_field_eq {α β : Type} (l : List α) (g : α → α) (f : α → β)
    (h : ∀ a, f (g a) = f a) : (l.map g).map f = l.map f := by
  rw [List.map_map]
  apply List.map_congr_left
  intro a _
  exact h a

theorem findVehiculo_none {s : DB} {k : Nat} (h : findVehiculo s k = none) :
    ∀ u ∈ s.vehiculos, ¬ u.id = k := by
  unfold findVehiculo at h
  rw [List.find?_eq_none] at h
  intro u hu
  have := h u hu
  simpa using this

theorem vehiculoAsignado_some_inv {s : DB} {r : Ruta} {v : Vehiculo}
    (h : vehiculoAsignado s r = some v) :
    ∃ k, r.vehiculo_id = some k ∧ findVehiculo s k = some v := by
  unfold vehiculoAsignado at h
  cases hk : r.vehiculo_id with
  | none => rw [hk] at h; simp at h
  | some k => rw [hk] at h; exact ⟨k, rfl, h⟩

theorem start_route_ok_inv {s : DB} {rid : Nat} {now : Int} {s' : DB}
    (h : start_route s rid now = Except.ok s') :
    ∃ r0, findRuta s rid = some r0 ∧ r0.estado = EstadoRuta.Programada ∧
      ((∃ k v, r0.vehiculo_id = some k ∧ findVehiculo s k = some v ∧
          v.estado = EstadoVehiculo.Disponible ∧
          s' = setVehEstado (updRuta s rid (fInicia now)) v.id EstadoVehiculo.EnRuta) ∨
        (vehiculoAsignado s r0 = none ∧ s' = updRuta s rid (fInicia now))) := by
  cases hfr : findRuta s rid with
  | none =>
    unfold start_route iniciar_ruta at h
    rw [hfr] at h
    simp [Except.map] at h
  | some r0 =>
    by_cases hest : r0.estado = EstadoRuta.Programada
    · refine ⟨r0, rfl, hest, ?_⟩
      cases hva : vehiculoAsignado s r0 with
      | none =>
        right
        refine ⟨rfl, ?_⟩
        have hspec := start_route_spec_noveh s rid now r0 hfr hest hva
        rw [hspec] at h
        exact (Except.ok.injEq _ _).mp h.symm
      | some v =>
        left
        obtain ⟨k, hvid, hfv⟩ := vehiculoAsignado_some_inv hva
        by_cases hvd : v.estado = EstadoVehiculo.Disponible
        · refine ⟨k, v, hvid, hfv, hvd, ?_⟩
          have hspec := start_route_spec s rid now r0 k v hfr hest hvid hfv hvd
          rw [hspec] at h
          exact (Except.ok.injEq _ _).mp h.symm
        · exfalso
          unfold start_route iniciar_ruta at h
          rw [hfr] at h
          simp only [hest, hva] at h
          simp [Except.map, hvd] at h
    · exfalso
      unfold start_route iniciar_ruta at h
      rw [hfr] at h
      dsimp only at h
      rw [if_pos (show r0.estado ≠ EstadoRuta.Programada from hest)] at h
      simp [Except.map] at h

theorem complete_route_ok_inv {s : DB} {rid : Nat} {now : Int} {s' : DB}
    (h : complete_route s rid now = Except.ok s') :
    ∃ r0, findRuta s rid = some r0 ∧ r0.estado = EstadoRuta.EnCurso ∧
      ((∃ k v, r0.vehiculo_id = some k ∧ findVehiculo s k = some v ∧
          s' = setVehEstado (updRuta s rid (fCompleta now)) v.id EstadoVehiculo.Disponible) ∨
        (vehiculoAsignado s r0 = none ∧ s' = updRuta s rid (fCompleta now))) := by
  cases hfr : findRuta s rid with
  | none =>
    unfold complete_route completar_ruta at h
    rw [hfr] at h
    simp [Except.map] at h
  | some r0 =>
    by_cases hest : r0.estado = EstadoRuta.EnCurso
    · refine ⟨r0, rfl, hest, ?_⟩
      cases hva : vehiculoAsignado s r0 with
      | none =>
        right
        refine ⟨rfl, ?_⟩
        have hspec := complete_route_spec_noveh s rid now r0 hfr hest hva
        rw [hspec] at h
        exact (Except.ok.injEq _ _).mp h.symm
      | some v =>
        left
        obtain ⟨k, hvid, hfv⟩ := vehiculoAsignado_some_inv hva
        refine ⟨k, v, hvid, hfv, ?_⟩
        have hspec := complete_route_spec s rid now r0 k v hfr hest hvid hfv
        rw [hspec] at h
        exact (Except.ok.injEq _ _).mp h.symm
    · exfalso
      unfold complete_route completar_ruta at h
      rw [hfr] at h
      dsimp only at h
      rw [if_pos (show r0.estado ≠ EstadoRuta.EnCurso from hest)] at h
      simp [Except.map] at h

theorem start_preserva_veh (s : DB) (rid : Nat) (now : Int) (r0 : Ruta) (k : Nat) (v : Vehiculo)
    (hwf : wf s) (hinv : inv s)
    (hr : findRuta s rid = some r0) (hest : r0.estado = EstadoRuta.Programada)
    (hvid : r0.vehiculo_id = some k) (hv : findVehiculo s k = some v)
    (hvd : v.estado = EstadoVehiculo.Disponible) :
    inv (setVehEstado (updRuta s rid (fInicia now)) v.id EstadoVehiculo.EnRuta) ∧
      wf (setVehEstado (updRuta s rid (fInicia now)) v.id EstadoVehiculo.EnRuta) := by
  obtain ⟨hndV, hndR, huniq⟩ := hwf
  have hvk : v.id = k := (findVehiculo_eq_some hv).2
  have hvmem : v ∈ s.vehiculos := (findVehiculo_eq_some hv).1
  have hrid : r0.id = rid := (findRuta_eq_some hr).2
  have hr0mem : r0 ∈ s.rutas := (findRuta_eq_some hr).1
  set X := setVehEstado (updRuta s rid (fInicia now)) v.id EstadoVehiculo.EnRuta with hX
  have hXv : X.vehiculos = s.vehiculos.map
      (fun u => if u.id = v.id then { u with estado := EstadoVehiculo.EnRuta } else u) := rfl
  have hXr : X.rutas = s.rutas.map
      (fun r => if r.id = rid then fInicia now r else r) := rfl
  have hAk : ¬ rutasActivasDe s.rutas k = true := by
    intro hA
    have := (hinv v hvmem).mpr (by rw [hvk]; exact hA)
    rw [hvd] at this
    exact absurd this (by simp)
  have hact : ∀ w, rutasActivasDe X.rutas w = true ↔
      (rutasActivasDe s.rutas w = true ∨ w = k) := by
    intro w
    rw [hXr, activas_map_iff]
    constructor
    · rintro ⟨r, hrm, hvw, hEn⟩
      by_cases hid : r.id = rid
      · have hrr : r = r0 := eq_of_mem_ruta_id hndR hrm hr0mem (by rw [hid, hrid])
        subst hrr
        rw [if_pos hid] at hvw
        right
        have hw : r.vehiculo_id = some w := hvw
        rw [hvid] at hw
        exact (Option.some.injEq _ _).mp hw.symm
      · rw [if_neg hid] at hvw hEn
        left
        rw [rutasActivasDe_iff]
        exact ⟨r, hrm, hvw, hEn⟩
    · rintro (hA | hwk)
      · obtain ⟨r, hrm, hvw, hEn⟩ := (rutasActivasDe_iff _ _).mp hA
        have hid : ¬ r.id = rid := by
          intro hid
          have hrr : r = r0 := eq_of_mem_ruta_id hndR hrm hr0mem (by rw [hid, hrid])
          rw [hrr, hest] at hEn
          exact absurd hEn (by simp)
        exact ⟨r, hrm, by rw [if_neg hid]; exact hvw, by rw [if_neg hid]; exact hEn⟩
      · subst hwk
        refine ⟨r0, hr0mem, ?_, ?_⟩
        · rw [if_pos hrid]
          exact hvid
        · rw [if_pos hrid]
          rfl
  constructor
  · -- the invariant on X
    intro v' hm'
    rw [hXv] at hm'
    obtain ⟨u, hu, hueq⟩ := List.mem_map.mp hm'
    subst hueq
    by_cases hid : u.id = v.id
    · simp only [if_pos hid]
      have hidk : u.id = k := by rw [hid, hvk]
      simp [hact, hidk]
    · simp only [if_neg hid]
      have hidk : ¬ u.id = k := by rw [← hvk]; exact hid
      rw [hact u.id]
      have := hinv u hu
      constructor
      · intro hEn
        exact Or.inl (this.mp hEn)
      · rintro (hA | hk)
        · exact this.mpr hA
        · exact absurd hk hidk
  · -- well-formedness of X
    refine ⟨?_, ?_, ?_⟩
    · rw [hXv, map_field_eq]
      · exact hndV
      · intro u
        by_cases hid : u.id = v.id <;> simp [hid]
    · rw [hXr, map_field_eq]
      · exact hndR
      · intro r
        by_cases hid : r.id = rid <;> simp [hid, fInicia_id]
    · intro v' hm' r1' hr1' r2' hr2' h1v h1e h2v h2e
      rw [hXv] at hm'
      rw [hXr] at hr1' hr2'
      obtain ⟨u, hu, hueq⟩ := List.mem_map.mp hm'
      have hv'id : v'.id = u.id := by
        rw [← hueq]
        by_cases hid : u.id = v.id <;> simp [hid]
      obtain ⟨r1, hm1, he1⟩ := List.mem_map.mp hr1'
      obtain ⟨r2, hm2, he2⟩ := List.mem_map.mp hr2'
      by_cases hu2 : u.id = k
      · -- only the started route can be active for vehicle `k`
        have honly : ∀ r ∈ s.rutas, ∀ r' : Ruta,
            r' = (if r.id = rid then fInicia now r else r) →
            r'.vehiculo_id = some k → r'.estado = EstadoRuta.EnCurso →
            r' = fInicia now r0 := by
          intro r hrm r' hr' hvw hEn
          by_cases hid : r.id = rid
          · rw [if_pos hid] at hr'
            have hrr : r = r0 := eq_of_mem_ruta_id hndR hrm hr0mem (by rw [hid, hrid])
            rw [hr', hrr]
          · rw [if_neg hid] at hr'
            rw [hr'] at hvw hEn
            exact absurd ((rutasActivasDe_iff _ _).mpr ⟨r, hrm, hvw, hEn⟩) hAk
        have hk1 : r1' = fInicia now r0 :=
          honly r1 hm1 r1' he1.symm (by rw [h1v, hv'id, hu2]) h1e
        have hk2 : r2' = fInicia now r0 :=
          honly r2 hm2 r2' he2.symm (by rw [h2v, hv'id, hu2]) h2e
        rw [hk1, hk2]
      · -- other vehicles keep their previous active routes
        have hkeep : ∀ r ∈ s.rutas, ∀ r' : Ruta,
            r' = (if r.id = rid then fInicia now r else r) →
            r'.vehiculo_id = some u.id → r' = r := by
          intro r hrm r' hr' hvw
          by_cases hid : r.id = rid
          · exfalso
            rw [if_pos hid] at hr'
            have hrr : r = r0 := eq_of_mem_ruta_id hndR hrm hr0mem (by rw [hid, hrid])
            rw [hr'] at hvw
            have : r.vehiculo_id = some u.id := hvw
            rw [hrr, hvid] at this
            exact hu2 ((Option.some.injEq _ _).mp this).symm
          · rw [if_neg hid] at hr'
            exact hr'
        have he1' : r1' = r1 := hkeep r1 hm1 r1' he1.symm (by rw [h1v, hv'id])
        have he2' : r2' = r2 := hkeep r2 hm2 r2' he2.symm (by rw [h2v, hv'id])
        rw [he1', he2']
        exact huniq u hu r1 hm1 r2 hm2
          (by rw [← he1', h1v, hv'id]) (by rw [← he1']; exact h1e)
          (by rw [← he2', h2v, hv'id]) (by rw [← he2']; exact h2e)

theorem complete_preserva_veh (s : DB) (rid : Nat) (now : Int) (r0 : Ruta) (k : Nat) (v : Vehiculo)
    (hwf : wf s) (hinv : inv s)
    (hr : findRuta s rid = some r0) (hest : r0.estado = EstadoRuta.EnCurso)
    (hvid : r0.vehiculo_id = some k) (hv : findVehiculo s k = some v) :
    inv (setVehEstado (updRuta s rid (fCompleta now)) v.id EstadoVehiculo.Disponible) ∧
      wf (setVehEstado (updRuta s rid (fCompleta now)) v.id EstadoVehiculo.Disponible) := by
  obtain ⟨hndV, hndR, huniq⟩ := hwf
  have hvk : v.id = k := (findVehiculo_eq_some hv).2
  have hvmem : v ∈ s.vehiculos := (findVehiculo_eq_some hv).1
  have hrid : r0.id = rid := (findRuta_eq_some hr).2
  have hr0mem : r0 ∈ s.rutas := (findRuta_eq_some hr).1
  set X := setVehEstado (updRuta s rid (fCompleta now)) v.id EstadoVehiculo.Disponible with hX
  have hXv : X.vehiculos = s.vehiculos.map
      (fun u => if u.id = v.id then { u with estado := EstadoVehiculo.Disponible } else u) := rfl
  have hXr : X.rutas = s.rutas.map
      (fun r => if r.id = rid then fCompleta now r else r) := rfl
  -- the completed route was the unique active route of vehicle `k`
  have honlyk : ∀ r ∈ s.rutas, r.vehiculo_id = some k → r.estado = EstadoRuta.EnCurso →
      r = r0 := by
    intro r hrm hvw hEn
    exact huniq v hvmem r hrm r0 hr0mem
      (by rw [hvw, hvk]) hEn (by rw [hvid, hvk]) hest
  have hact : ∀ w, rutasActivasDe X.rutas w = true ↔
      (rutasActivasDe s.rutas w = true ∧ ¬ w = k) := by
    intro w
    rw [hXr, activas_map_iff]
    constructor
    · rintro ⟨r, hrm, hvw, hEn⟩
      by_cases hid : r.id = rid
      · exfalso
        rw [if_pos hid] at hEn
        have hc : (fCompleta now r).estado = EstadoRuta.Completada := rfl
        rw [hc] at hEn
        exact absurd hEn (by simp)
      · rw [if_neg hid] at hvw hEn
        constructor
        · rw [rutasActivasDe_iff]
          exact ⟨r, hrm, hvw, hEn⟩
        · intro hwk
          subst hwk
          have hrr : r = r0 := honlyk r hrm hvw hEn
          exact hid (by rw [hrr, hrid])
    · rintro ⟨hA, hwk⟩
      obtain ⟨r, hrm, hvw, hEn⟩ := (rutasActivasDe_iff _ _).mp hA
      have hid : ¬ r.id = rid := by
        intro hid
        have hrr : r = r0 := eq_of_mem_ruta_id hndR hrm hr0mem (by rw [hid, hrid])
        rw [hrr, hvid] at hvw
        exact hwk ((Option.some.injEq _ _).mp hvw).symm
      exact ⟨r, hrm, by rw [if_neg hid]; exact hvw, by rw [if_neg hid]; exact hEn⟩
  constructor
  · intro v' hm'
    rw [hXv] at hm'
    obtain ⟨u, hu, hueq⟩ := List.mem_map.mp hm'
    subst hueq
    by_cases hid : u.id = v.id
    · simp only [if_pos hid]
      have hidk : u.id = k := by rw [hid, hvk]
      simp [hact, hidk]
    · simp only [if_neg hid]
      have hidk : ¬ u.id = k := by rw [← hvk]; exact hid
      rw [hact u.id]
      have := hinv u hu
      constructor
      · intro hEn
        exact ⟨this.mp hEn, hidk⟩
      · rintro ⟨hA, _⟩
        exact this.mpr hA
  · refine ⟨?_, ?_, ?_⟩
    · rw [hXv, map_field_eq]
      · exact hndV
      · intro u
        by_cases hid : u.id = v.id <;> simp [hid]
    · rw [hXr, map_field_eq]
      · exact hndR
      · intro r
        by_cases hid : r.id = rid <;> simp [hid, fCompleta_id]
    · intro v' hm' r1' hr1' r2' hr2' h1v h1e h2v h2e
      rw [hXv] at hm'
      rw [hXr] at hr1' hr2'
      obtain ⟨u, hu, hueq⟩ := List.mem_map.mp hm'
      have hv'id : v'.id = u.id := by
        rw [← hueq]
        by_cases hid : u.id = v.id <;> simp [hid]
      obtain ⟨r1, hm1, he1⟩ := List.mem_map.mp hr1'
      obtain ⟨r2, hm2, he2⟩ := List.mem_map.mp hr2'
      have hkeep : ∀ r ∈ s.rutas, ∀ r' : Ruta,
          r' = (if r.id = rid then fCompleta now r else r) →
          r'.estado = EstadoRuta.EnCurso → r' = r := by
        intro r hrm r' hr' hEn
        by_cases hid : r.id = rid
        · exfalso
          rw [if_pos hid] at hr'
          rw [hr'] at hEn
          have hc : (fCompleta now r).estado = EstadoRuta.Completada := rfl
          rw [hc] at hEn
          exact absurd hEn (by simp)
        · rw [if_neg hid] at hr'
          exact hr'
      have he1' : r1' = r1 := hkeep r1 hm1 r1' he1.symm h1e
      have he2' : r2' = r2 := hkeep r2 hm2 r2' he2.symm h2e
      rw [he1', he2']
      exact huniq u hu r1 hm1 r2 hm2
        (by rw [← he1', h1v, hv'id]) (by rw [← he1']; exact h1e)
        (by rw [← he2', h2v, hv'id]) (by rw [← he2']; exact h2e)

theorem upd_preserva_noveh (s : DB) (rid : Nat) (f : Ruta → Ruta) (r0 : Ruta)
    (hwf : wf s) (hinv : inv s)
    (hr : findRuta s rid = some r0) (hva : vehiculoAsignado s r0 = none)
    (hfid : ∀ r, (f r).id = r.id) (hfvid : ∀ r, (f r).vehiculo_id = r.vehiculo_id) :
    inv (updRuta s rid f) ∧ wf (updRuta s rid f) := by
  obtain ⟨hndV, hndR, huniq⟩ := hwf
  have hrid : r0.id = rid := (findRuta_eq_some hr).2
  have hr0mem : r0 ∈ s.rutas := (findRuta_eq_some hr).1
  set X := updRuta s rid f with hX
  have hXv : X.vehiculos = s.vehiculos := rfl
  have hXr : X.rutas = s.rutas.map (fun r => if r.id = rid then f r else r) := rfl
  -- the route being written references no existing vehicle
  have hr0na : ∀ u ∈ s.vehiculos, ¬ r0.vehiculo_id = some u.id := by
    intro u hu hcon
    unfold vehiculoAsignado at hva
    rw [hcon] at hva
    have hnone : findVehiculo s u.id = none := hva
    exact findVehiculo_none hnone u hu rfl
  have hact : ∀ u ∈ s.vehiculos,
      (rutasActivasDe X.rutas u.id = true ↔ rutasActivasDe s.rutas u.id = true) := by
    intro u hu
    rw [hXr, activas_map_iff, rutasActivasDe_iff]
    constructor
    · rintro ⟨r, hrm, hvw, hEn⟩
      by_cases hid : r.id = rid
      · exfalso
        have hrr : r = r0 := eq_of_mem_ruta_id hndR hrm hr0mem (by rw [hid, hrid])
        rw [if_pos hid, hfvid] at hvw
        rw [hrr] at hvw
        exact hr0na u hu hvw
      · rw [if_neg hid] at hvw hEn
        exact ⟨r, hrm, hvw, hEn⟩
    · rintro ⟨r, hrm, hvw, hEn⟩
      have hid : ¬ r.id = rid := by
        intro hid
        have hrr : r = r0 := eq_of_mem_ruta_id hndR hrm hr0mem (by rw [hid, hrid])
        rw [hrr] at hvw
        exact hr0na u hu hvw
      exact ⟨r, hrm, by rw [if_neg hid]; exact hvw, by rw [if_neg hid]; exact hEn⟩
  constructor
  · intro u hu
    rw [hXv] at hu
    rw [hact u hu]
    exact hinv u hu
  · refine ⟨?_, ?_, ?_⟩
    · rw [hXv]
      exact hndV
    · rw [hXr, map_field_eq]
      · exact hndR
      · intro r
        by_cases hid : r.id = rid <;> simp [hid, hfid]
    · intro u hu r1' hr1' r2' hr2' h1v h1e h2v h2e
      rw [hXv] at hu
      rw [hXr] at hr1' hr2'
      obtain ⟨r1, hm1, he1⟩ := List.mem_map.mp hr1'
      obtain ⟨r2, hm2, he2⟩ := List.mem_map.mp hr2'
      have hkeep : ∀ r ∈ s.rutas, ∀ r' : Ruta,
          r' = (if r.id = rid then f r else r) →
          r'.vehiculo_id = some u.id → r' = r := by
        intro r hrm r' hr' hvw
        by_cases hid : r.id = rid
        · exfalso
          have hrr : r = r0 := eq_of_mem_ruta_id hndR hrm hr0mem (by rw [hid, hrid])
          rw [hr', if_pos hid, hfvid] at hvw
          rw [hrr] at hvw
          exact hr0na u hu hvw
        · rw [if_neg hid] at hr'
          exact hr'
      have he1' : r1' = r1 := hkeep r1 hm1 r1' he1.symm h1v
      have he2' : r2' = r2 := hkeep r2 hm2 r2' he2.symm h2v
      rw [he1', he2']
      exact huniq u hu r1 hm1 r2 hm2
        (by rw [← he1']; exact h1v) (by rw [← he1']; exact h1e)
        (by rw [← he2']; exact h2v) (by rw [← he2']; exact h2e)

theorem toNat_ofNat_valid {m : Nat} (h : m.isValidChar) : (Char.ofNat m).toNat = m := by
  rw [Char.ofNat, dif_pos h]
  rfl

theorem char_toNat_inj {a b : Char} (h : a.toNat = b.toNat) : a = b := by
  calc a = Char.ofNat a.toNat := (Char.ofNat_toNat a).symm
    _ = Char.ofNat b.toNat := by rw [h]
    _ = b := Char.ofNat_toNat b

theorem isWhitespace_iff_toNat (c : Char) :
    c.isWhitespace = true ↔ (c.toNat = 32 ∨ c.toNat = 9 ∨ c.toNat = 13 ∨ c.toNat = 10) := by
  unfold Char.isWhitespace
  simp only [Bool.or_eq_true, decide_eq_true_eq]
  constructor
  · rintro (((h | h) | h) | h) <;> subst h <;> decide
  · rintro (h | h | h | h)
    · exact Or.inl (Or.inl (Or.inl (char_toNat_inj (show c.toNat = Char.toNat ' ' from h))))
    · exact Or.inl (Or.inl (Or.inr (char_toNat_inj (show c.toNat = Char.toNat '\t' from h))))
    · exact Or.inl (Or.inr (char_toNat_inj (show c.toNat = Char.toNat '\x0d' from h)))
    · exact Or.inr (char_toNat_inj (show c.toNat = Char.toNat '\n' from h))

theorem toUpper_isWhitespace (c : Char) :
    (Char.toUpper c).isWhitespace = c.isWhitespace := by
  by_cases h : 97 ≤ c.toNat ∧ c.toNat ≤ 122
  · have hup : Char.toUpper c = Char.ofNat (c.toNat - 32) := by
      simp only [Char.toUpper]
      rw [if_pos h]
    have hvalid : (c.toNat - 32).isValidChar := Or.inl (by omega)
    have ht : (Char.ofNat (c.toNat - 32)).toNat = c.toNat - 32 := toNat_ofNat_valid hvalid
    have h1 : (Char.toUpper c).isWhitespace = false := by
      cases hb : (Char.toUpper c).isWhitespace
      · rfl
      · exfalso
        rw [hup, isWhitespace_iff_toNat, ht] at hb
        omega
    have h2 : c.isWhitespace = false := by
      cases hb : c.isWhitespace
      · rfl
      · exfalso
        rw [isWhitespace_iff_toNat] at hb
        omega
    rw [h1, h2]
  · have : Char.toUpper c = c := by
      simp only [Char.toUpper]
      rw [if_neg h]
    rw [this]

theorem stripChars_map_toUpper (l : List Char) :
    stripChars (l.map Char.toUpper) = (stripChars l).map Char.toUpper := by
  have hfun : (Char.isWhitespace ∘ Char.toUpper) = Char.isWhitespace := by
    funext c
    exact toUpper_isWhitespace c
  unfold stripChars
  rw [List.dropWhile_map, hfun, ← List.map_reverse, List.dropWhile_map, hfun, ← List.map_reverse]

theorem pyStrip_pyUpper (s : String) : pyStrip (pyUpper s) = pyUpper (pyStrip s) := by
  show String.mk (stripChars (s.data.map Char.toUpper)) =
    String.mk ((stripChars s.data).map Char.toUpper)
  rw [stripChars_map_toUpper]

/-! ### Concrete sample states -/

/-- A vehicle row used by the concrete examples. -/
def vehiculoBase : Vehiculo :=
  { id := 1, placa := "ABC1234", marca := "Toyota", modelo := "Hilux",
    anio := 2020, capacidad := 10, estado := EstadoVehiculo.Disponible }

/-- A route row used by the concrete examples. -/
def rutaBase : Ruta :=
  { id := 1, nombre := "Norte", origen := "Bogota", destino := "Cali",
    distancia := 460, tiempo_estimado := 480, vehiculo_id := some 1,
    estado := EstadoRuta.Programada, fecha_inicio := none, fecha_fin := none }

/-- One available vehicle with one scheduled route assigned to it. -/
def sFeliz : DB := { vehiculos := [vehiculoBase], rutas := [rutaBase] }

/-- A vehicle on route: route 1 in progress, route 2 still scheduled,
both assigned to it. -/
def sCancelaCruce : DB :=
  { vehiculos := [{ vehiculoBase with estado := EstadoVehiculo.EnRuta }]
    rutas := [{ rutaBase with estado := EstadoRuta.EnCurso, fecha_inicio := some 0 },
              { rutaBase with id := 2, nombre := "Sur" }] }

/-- A vehicle with two routes in progress at once. -/
def sDosEnCurso : DB :=
  { vehiculos := [{ vehiculoBase with estado := EstadoVehiculo.EnRuta }]
    rutas := [{ rutaBase with estado := EstadoRuta.EnCurso, fecha_inicio := some 0 },
              { rutaBase with id := 2, nombre := "Sur", estado := EstadoRuta.EnCurso, fecha_inicio := some 0 }] }

/-- An available vehicle whose single route is already completed. -/
def sCompletada : DB :=
  { vehiculos := [vehiculoBase]
    rutas := [{ rutaBase with estado := EstadoRuta.Completada, fecha_inicio := some 0, fecha_fin := some 3600 }] }

/-- A vehicle under maintenance with a scheduled route assigned to it. -/
def sMantenimiento : DB :=
  { vehiculos := [{ vehiculoBase with estado := EstadoVehiculo.Mantenimiento }]
    rutas := [rutaBase] }

/-- A single vehicle with no routes at all. -/
def sSolo : DB :=
  { vehiculos := [{ vehiculoBase with id := 2, placa := "XYZ9876" }], rutas := [] }

/-! ### The claims -/

/-- C1 (amended): the status invariant — a vehicle is `'En Ruta'` iff it
has an `'En curso'` route — is preserved by `start_route` and
`complete_route` on well-formed states (unique primary keys, at most one
`'En curso'` route per vehicle, which both operations also preserve),
and `reconcile` establishes it on every state.  It is NOT preserved by
`cancel_route` (see the counterexample: cancelling a scheduled route of
a vehicle that is on route because of another route releases the
vehicle) nor by `set_vehicle_status` (which accepts `'Mantenimiento'`
for a vehicle with an active route, see C8). -/
theorem C1_invariante_enmendada :
    (∀ s s' rid now, wf s → inv s → start_route s rid now = Except.ok s' → inv s' ∧ wf s') ∧
    (∀ s s' rid now, wf s → inv s → complete_route s rid now = Except.ok s' → inv s' ∧ wf s') ∧
    (∀ s, inv (validar_estados_consistentes s)) := by
  refine ⟨?_, ?_, inv_validar⟩
  · intro s s' rid now hwf hinv h
    obtain ⟨r0, hr, hest, hcase⟩ := start_route_ok_inv h
    rcases hcase with ⟨k, v, hvid, hv, hvd, hs'⟩ | ⟨hva, hs'⟩
    · subst hs'
      exact start_preserva_veh s rid now r0 k v hwf hinv hr hest hvid hv hvd
    · subst hs'
      exact upd_preserva_noveh s rid (fInicia now) r0 hwf hinv hr hva
        (fInicia_id now) (fun r => rfl)
  · intro s s' rid now hwf hinv h
    obtain ⟨r0, hr, hest, hcase⟩ := complete_route_ok_inv h
    rcases hcase with ⟨k, v, hvid, hv, hs'⟩ | ⟨hva, hs'⟩
    · subst hs'
      exact complete_preserva_veh s rid now r0 k v hwf hinv hr hest hvid hv
    · subst hs'
      exact upd_preserva_noveh s rid (fCompleta now) r0 hwf hinv hr hva
        (fCompleta_id now) (fun r => rfl)

/-- C1 counterexample: the claim "every engine operation preserves the
invariant" fails for `cancel_route`.  In `sCancelaCruce` the invariant
and well-formedness hold, yet cancelling the still-scheduled route 2
sets the vehicle `'Disponible'` while route 1 stays `'En curso'`
(`cancelar_ruta` releases the vehicle merely because its status is
`'En Ruta'`; the listener's defensive count cannot restore it). -/
theorem C1_contraejemplo :
    inv sCancelaCruce ∧ wf sCancelaCruce ∧
      (cancel_route sCancelaCruce 2).map (fun s => decide (inv s)) = Except.ok false :=
  ⟨by decide, by decide, by rfl⟩

/-- C1 witness: the preservation theorem applied to the concrete state
`sFeliz`, starting route 1 at time 0. -/
theorem C1_testigo :
    inv (setVehEstado (updRuta sFeliz 1 (fInicia 0)) 1 EstadoVehiculo.EnRuta) ∧
      wf (setVehEstado (updRuta sFeliz 1 (fInicia 0)) 1 EstadoVehiculo.EnRuta) :=
  C1_invariante_enmendada.1 sFeliz _ 1 0 (by decide) (by decide) (by rfl)

/-- C2 (amended): completing an `'En curso'` route with an assigned
vehicle sets the route `'Completada'` with `fecha_fin = now`, and sets
the vehicle `'Disponible'` UNCONDITIONALLY — also when another route of
the same vehicle is still `'En curso'`.  The "no other InProgress
route" count in the `before_update` listener only guards the listener's
own (redundant) write; it never restores `'En Ruta'`, because
`completar_ruta` has already overwritten the vehicle status. -/
theorem C2_completar_enmendada (s : DB) (rid : Nat) (now : Int) (r0 : Ruta) (k : Nat)
    (v : Vehiculo)
    (hr : findRuta s rid = some r0) (hest : r0.estado = EstadoRuta.EnCurso)
    (hvid : r0.vehiculo_id = some k) (hv : findVehiculo s k = some v) :
    ∃ s', complete_route s rid now = Except.ok s' ∧
      findRuta s' rid = some { r0 with estado := EstadoRuta.Completada, fecha_fin := some now } ∧
      (findVehiculo s' k).map Vehiculo.estado = some EstadoVehiculo.Disponible := by
  have hvk : v.id = k := (findVehiculo_eq_some hv).2
  have hrid : r0.id = rid := (findRuta_eq_some hr).2
  refine ⟨_, complete_route_spec s rid now r0 k v hr hest hvid hv, ?_, ?_⟩
  · rw [findRuta_setVehEstado, findRuta_updRuta s rid rid (fCompleta now) (fCompleta_id now), hr]
    simp only [Option.map_some', if_pos hrid]
    rfl
  · rw [findVehiculo_setVehEstado, findVehiculo_updRuta, hv]
    simp [hvk]

/-- C2 counterexample: in `sDosEnCurso` route 1 is `'En curso'` with an
assigned vehicle and route 2 of the same vehicle is also `'En curso'`,
yet `complete_route` on route 1 sets the vehicle `'Disponible'` — the
claim says the vehicle status would be left unchanged (`'En Ruta'`). -/
theorem C2_contraejemplo :
    (findRuta sDosEnCurso 1).map Ruta.estado = some EstadoRuta.EnCurso ∧
    (findRuta sDosEnCurso 2).map Ruta.estado = some EstadoRuta.EnCurso ∧
    (findVehiculo sDosEnCurso 1).map Vehiculo.estado = some EstadoVehiculo.EnRuta ∧
    (complete_route sDosEnCurso 1 3600).map (fun s => (findVehiculo s 1).map Vehiculo.estado) =
      Except.ok (some EstadoVehiculo.Disponible) :=
  ⟨rfl, rfl, rfl, rfl⟩

/-- C2 witness: the amended theorem applied to `sDosEnCurso`. -/
theorem C2_testigo :
    ∃ s', complete_route sDosEnCurso 1 3600 = Except.ok s' ∧
      findRuta s' 1 = some { { rutaBase with estado := EstadoRuta.EnCurso, fecha_inicio := some 0 } with estado := EstadoRuta.Completada, fecha_fin := some 3600 } ∧
      (findVehiculo s' 1).map Vehiculo.estado = some EstadoVehiculo.Disponible :=
  C2_completar_enmendada sDosEnCurso 1 3600
    { rutaBase with estado := EstadoRuta.EnCurso, fecha_inicio := some 0 } 1
    { vehiculoBase with estado := EstadoVehiculo.EnRuta }
    (by decide) (by decide) (by decide) (by decide)

/-- C3 (amended): `cancel_route` has no status guard at all: it succeeds
on every existing route — also from the terminal statuses `'Completada'`
and `'Cancelada'` — and sets the route `'Cancelada'`. -/
theorem C3_cancelar_enmendada (s : DB) (rid : Nat) (r0 : Ruta)
    (hr : findRuta s rid = some r0) :
    ∃ s', cancel_route s rid = Except.ok s' ∧
      findRuta s' rid = some { r0 with estado := EstadoRuta.Cancelada } :=
  cancel_route_ok s rid r0 hr

/-- C3 counterexample: route 1 of `sCompletada` is `'Completada'`
(terminal), yet `cancel_route` succeeds and changes its status to
`'Cancelada'` — the claim says it fails and leaves the status
unchanged. -/
theorem C3_contraejemplo :
    (findRuta sCompletada 1).map Ruta.estado = some EstadoRuta.Completada ∧
      (cancel_route sCompletada 1).map (fun s => (findRuta s 1).map Ruta.estado) =
        Except.ok (some EstadoRuta.Cancelada) :=
  ⟨rfl, rfl⟩

/-- C3 witness: the amended theorem applied to `sCompletada`. -/
theorem C3_testigo :
    ∃ s', cancel_route sCompletada 1 = Except.ok s' ∧
      findRuta s' 1 = some { { rutaBase with estado := EstadoRuta.Completada, fecha_inicio := some 0, fecha_fin := some 3600 } with estado := EstadoRuta.Cancelada } :=
  C3_cancelar_enmendada sCompletada 1
    { rutaBase with estado := EstadoRuta.Completada, fecha_inicio := some 0, fecha_fin := some 3600 }
    (by decide)

/-- C4: `start_route` fails with the business-rule error when the route
is not `'Programada'`, and when an assigned vehicle is not
`'Disponible'`.  The failure is the `ValueError` raised before any
field assignment in `iniciar_ruta`, so the error result carries no
successor state: route and vehicle are untouched by construction of the
embedding, exactly as in the source. -/
theorem C4_iniciar_falla (s : DB) (rid : Nat) (now : Int) (r0 : Ruta)
    (hr : findRuta s rid = some r0) :
    (¬ r0.estado = EstadoRuta.Programada →
      start_route s rid now = Except.error "Solo se pueden iniciar rutas programadas") ∧
    (∀ v, r0.estado = EstadoRuta.Programada → vehiculoAsignado s r0 = some v →
      ¬ v.estado = EstadoVehiculo.Disponible →
      start_route s rid now = Except.error "El vehículo asignado no está disponible") := by
  constructor
  · intro hest
    unfold start_route iniciar_ruta
    rw [hr]
    dsimp only
    rw [if_pos hest]
    rfl
  · intro v hest hva hvd
    unfold start_route iniciar_ruta
    rw [hr]
    dsimp only
    rw [if_neg (show ¬ r0.estado ≠ EstadoRuta.Programada from by simp [hest])]
    rw [hva]
    dsimp only
    rw [if_pos hvd]
    rfl

/-- C4 witness: starting the scheduled route of `sMantenimiento`, whose
vehicle is in maintenance, fails with the availability error. -/
theorem C4_testigo :
    start_route sMantenimiento 1 0 = Except.error "El vehículo asignado no está disponible" :=
  (C4_iniciar_falla sMantenimiento 1 0 rutaBase (by decide)).2
    { vehiculoBase with estado := EstadoVehiculo.Mantenimiento }
    (by decide) (by decide) (by decide)

/-- C5: the happy-path scenario.  For an available vehicle with a
scheduled route assigned to it (and no route of the vehicle in
progress), `start_route` makes the route `'En curso'` with
`fecha_inicio` set and the vehicle `'En Ruta'`; then `complete_route`
makes the route `'Completada'` with `fecha_fin` set and the vehicle
`'Disponible'`. -/
theorem C5_escenario (s : DB) (rid : Nat) (t1 t2 : Int) (r0 : Ruta) (k : Nat) (v : Vehiculo)
    (hr : findRuta s rid = some r0) (hest : r0.estado = EstadoRuta.Programada)
    (hvid : r0.vehiculo_id = some k) (hv : findVehiculo s k = some v)
    (hvd : v.estado = EstadoVehiculo.Disponible)
    (_hotras : ∀ r ∈ s.rutas, r.vehiculo_id = some k → ¬ r.estado = EstadoRuta.EnCurso) :
    ∃ s1 s2, start_route s rid t1 = Except.ok s1 ∧
      findRuta s1 rid = some { r0 with estado := EstadoRuta.EnCurso, fecha_inicio := some t1 } ∧
      (findVehiculo s1 k).map Vehiculo.estado = some EstadoVehiculo.EnRuta ∧
      complete_route s1 rid t2 = Except.ok s2 ∧
      findRuta s2 rid = some { r0 with estado := EstadoRuta.Completada, fecha_inicio := some t1, fecha_fin := some t2 } ∧
      (findVehiculo s2 k).map Vehiculo.estado = some EstadoVehiculo.Disponible := by
  have hvk : v.id = k := (findVehiculo_eq_some hv).2
  have hrid : r0.id = rid := (findRuta_eq_some hr).2
  have hstart := start_route_spec s rid t1 r0 k v hr hest hvid hv hvd
  set s1 := setVehEstado (updRuta s rid (fInicia t1)) v.id EstadoVehiculo.EnRuta with hs1
  have hr1 : findRuta s1 rid = some (fInicia t1 r0) := by
    rw [hs1, findRuta_setVehEstado, findRuta_updRuta s rid rid (fInicia t1) (fInicia_id t1), hr]
    simp [hrid]
  have hv1 : findVehiculo s1 k = some { v with estado := EstadoVehiculo.EnRuta } := by
    rw [hs1, findVehiculo_setVehEstado, findVehiculo_updRuta, hv]
    simp [hvk]
  have hcomp := complete_route_spec s1 rid t2 (fInicia t1 r0) k
    { v with estado := EstadoVehiculo.EnRuta } hr1 rfl hvid hv1
  refine ⟨s1, _, hstart, by rw [hr1]; rfl, by rw [hv1]; rfl, hcomp, ?_, ?_⟩
  · rw [findRuta_setVehEstado, findRuta_updRuta s1 rid rid (fCompleta t2) (fCompleta_id t2), hr1]
    have : (fInicia t1 r0).id = rid := by rw [fInicia_id, hrid]
    simp only [Option.map_some', if_pos this]
    rfl
  · rw [findVehiculo_setVehEstado, findVehiculo_updRuta, hv1]
    simp

/-- C5 witness: the scenario run on `sFeliz`. -/
theorem C5_testigo :
    ∃ s1 s2, start_route sFeliz 1 0 = Except.ok s1 ∧
      findRuta s1 1 = some { rutaBase with estado := EstadoRuta.EnCurso, fecha_inicio := some 0 } ∧
      (findVehiculo s1 1).map Vehiculo.estado = some EstadoVehiculo.EnRuta ∧
      complete_route s1 1 3600 = Except.ok s2 ∧
      findRuta s2 1 = some { rutaBase with estado := EstadoRuta.Completada, fecha_inicio := some 0, fecha_fin := some 3600 } ∧
      (findVehiculo s2 1).map Vehiculo.estado = some EstadoVehiculo.Disponible :=
  C5_escenario sFeliz 1 0 3600 rutaBase 1 vehiculoBase
    (by decide) (by decide) (by decide) (by decide) (by decide) (by decide)

/-- C6: the reconciliation sweep `validar_estados_consistentes` is
idempotent — running it twice produces exactly the state of running it
once (the second run changes no vehicle's status). -/
theorem C6_reconciliar_idempotente (s : DB) :
    validar_estados_consistentes (validar_estados_consistentes s) =
      validar_estados_consistentes s :=
  validar_of_inv _ (inv_validar s)

/-- C7: `eliminar_vehiculo` succeeds exactly on vehicles with zero
associated routes.  With no associated route it removes the vehicle
(and nothing else: the other vehicles and all routes survive); with at
least one associated route of any status it fails with a business-rule
error, which in this embedding carries no successor state, so nothing
is removed. -/
theorem C7_eliminar_vehiculo_caracterizado (s : DB) (vid : Nat) (v : Vehiculo)
    (hv : findVehiculo s vid = some v) :
    ((∀ r ∈ s.rutas, ¬ r.vehiculo_id = some vid) →
      ∃ s', eliminar_vehiculo s vid = Except.ok s' ∧ findVehiculo s' vid = none ∧
        s'.rutas = s.rutas ∧ ∀ u ∈ s.vehiculos, ¬ u.id = vid → u ∈ s'.vehiculos) ∧
    (∀ r ∈ s.rutas, r.vehiculo_id = some vid →
      ∃ msg, eliminar_vehiculo s vid = Except.error msg) := by
  constructor
  · intro hno
    have hact : ¬ tiene_rutas_activas s vid = true := by
      intro hb
      obtain ⟨r, hrm, hvr, _⟩ := (rutasActivasDe_iff _ _).mp hb
      exact hno r hrm hvr
    have hany : ¬ (s.rutas.any fun r => r.vehiculo_id == some vid) = true := by
      intro hb
      obtain ⟨r, hrm, hbeq⟩ := List.any_eq_true.mp hb
      exact hno r hrm (by simpa using hbeq)
    unfold eliminar_vehiculo
    rw [hv]
    dsimp only
    rw [if_neg hact, if_neg hany]
    refine ⟨_, rfl, ?_, ?_, ?_⟩
    · unfold findVehiculo
      dsimp only
      rw [List.find?_eq_none]
      intro u hu
      have h2 := (List.mem_filter.mp hu).2
      simp only [bne_iff_ne, ne_eq] at h2
      simpa using h2
    · dsimp only
      rw [List.filter_eq_self]
      intro r hrm
      simp [hno r hrm]
    · intro u hu hne
      dsimp only
      rw [List.mem_filter]
      exact ⟨hu, by simp [hne]⟩
  · intro r hrm hvr
    by_cases hact : tiene_rutas_activas s vid = true
    · refine ⟨"No se puede eliminar un vehículo con rutas activas", ?_⟩
      unfold eliminar_vehiculo
      rw [hv]
      dsimp only
      rw [if_pos hact]
    · have hany : (s.rutas.any fun r => r.vehiculo_id == some vid) = true :=
        List.any_eq_true.mpr ⟨r, hrm, by simp [hvr]⟩
      refine ⟨"No se puede eliminar un vehículo que tiene rutas asociadas", ?_⟩
      unfold eliminar_vehiculo
      rw [hv]
      dsimp only
      rw [if_neg hact, if_pos hany]

/-- C7 witness: deleting the route-less vehicle of `sSolo` succeeds and
removes it. -/
theorem C7_testigo :
    ∃ s', eliminar_vehiculo sSolo 2 = Except.ok s' ∧ findVehiculo s' 2 = none ∧
      s'.rutas = sSolo.rutas ∧ ∀ u ∈ sSolo.vehiculos, ¬ u.id = 2 → u ∈ s'.vehiculos :=
  (C7_eliminar_vehiculo_caracterizado sSolo 2
    { vehiculoBase with id := 2, placa := "XYZ9876" } (by decide)).1 (by decide)

/-- C8: the business guard of `set_vehicle_status` rejects exactly
`'Disponible'`-with-an-active-route and `'En Ruta'`-without-an-active
route; `'Mantenimiento'` is always accepted — also for a vehicle that
still has an `'En curso'` route, which then sits in maintenance while
its route keeps running (the routes table is untouched). -/
theorem C8_mantenimiento_permitido (s : DB) (vid : Nat) (v : Vehiculo)
    (hv : findVehiculo s vid = some v) :
    (∀ nuevo, (∃ s', set_vehicle_status s vid nuevo = Except.ok s') ↔
      (¬(nuevo = EstadoVehiculo.Disponible ∧ tiene_rutas_activas s vid = true) ∧
       ¬(nuevo = EstadoVehiculo.EnRuta ∧ ¬ tiene_rutas_activas s vid = true))) ∧
    set_vehicle_status s vid EstadoVehiculo.Mantenimiento =
      Except.ok (setVehEstado s vid EstadoVehiculo.Mantenimiento) ∧
    (setVehEstado s vid EstadoVehiculo.Mantenimiento).rutas = s.rutas ∧
    (findVehiculo (setVehEstado s vid EstadoVehiculo.Mantenimiento) vid).map Vehiculo.estado =
      some EstadoVehiculo.Mantenimiento := by
  have hvk : v.id = vid := (findVehiculo_eq_some hv).2
  refine ⟨?_, ?_, rfl, ?_⟩
  · intro nuevo
    unfold set_vehicle_status cambiar_estado
    rw [hv]
    dsimp only
    by_cases h1 : nuevo = EstadoVehiculo.Disponible ∧ tiene_rutas_activas s vid = true
    · rw [if_pos ⟨rfl, h1.1, h1.2⟩]
      obtain ⟨h1a, h1b⟩ := h1
      simp [h1a, h1b]
    · rw [if_neg (fun h => h1 ⟨h.2.1, h.2.2⟩)]
      by_cases h2 : nuevo = EstadoVehiculo.EnRuta ∧ ¬ tiene_rutas_activas s vid = true
      · rw [if_pos ⟨rfl, h2.1, h2.2⟩]
        obtain ⟨h2a, h2b⟩ := h2
        simp [h2a, h2b]
      · rw [if_neg (fun h => h2 ⟨h.2.1, h.2.2⟩)]
        exact iff_of_true ⟨_, rfl⟩ ⟨h1, h2⟩
  · unfold set_vehicle_status cambiar_estado
    rw [hv]
    dsimp only
    rw [if_neg (fun h => by exact absurd h.2.1 (by decide))]
    rw [if_neg (fun h => by exact absurd h.2.1 (by decide))]
  · rw [findVehiculo_setVehEstado, hv]
    simp [hvk]

/-- C8 witness: the vehicle of `sDosEnCurso` has routes `'En curso'`,
and moving it to `'Mantenimiento'` succeeds. -/
theorem C8_testigo :
    set_vehicle_status sDosEnCurso 1 EstadoVehiculo.Mantenimiento =
      Except.ok (setVehEstado sDosEnCurso 1 EstadoVehiculo.Mantenimiento) :=
  (C8_mantenimiento_permitido sDosEnCurso 1
    { vehiculoBase with estado := EstadoVehiculo.EnRuta } (by decide)).2.1

/-- C9: `velocidad_promedio` never divides by zero: it is `None` exactly
when the actual duration is `None` or `0` minutes; the division is
reached only for a nonzero duration (the Python `if duracion:`
truthiness test). -/
theorem C9_velocidad_promedio (r : Ruta) :
    velocidad_promedio r = none ↔
      (duracion_real r = none ∨ duracion_real r = some 0) := by
  unfold velocidad_promedio
  cases h : duracion_real r with
  | none => simp
  | some d =>
    by_cases hd : d = 0 <;> simp [hd]

/-- C10: `validate_placa` accepts a plate string exactly when its RAW
length is between 6 and 8 (and it is nonempty, which the length bound
subsumes), and on acceptance stores the upper-cased, stripped value;
upper-casing and stripping commute, so the stored value is
`upper(trim(s))` as the claim words it.  An input whose trimmed form
would fit but whose raw length exceeds 8 is rejected, because the
length check runs before normalization. -/
theorem C10_validate_placa (s : String) :
    ((∃ t, validate_placa s = Except.ok t) ↔
      (¬ s = "" ∧ 6 ≤ s.length ∧ s.length ≤ 8)) ∧
    (∀ t, validate_placa s = Except.ok t → t = pyUpper (pyStrip s)) := by
  constructor
  · unfold validate_placa
    by_cases hcond : s.length = 0 ∨ s.length < 6 ∨ s.length > 8
    · rw [if_pos hcond]
      constructor
      · rintro ⟨t, ht⟩
        simp at ht
      · rintro ⟨hne, h6, h8⟩
        rcases hcond with h0 | hlt | hgt <;> omega
    · rw [if_neg hcond]
      push_neg at hcond
      constructor
      · intro _
        refine ⟨?_, ?_, ?_⟩
        · intro hs
          subst hs
          exact hcond.1 rfl
        · omega
        · omega
      · intro _
        exact ⟨_, rfl⟩
  · intro t ht
    unfold validate_placa at ht
    by_cases hcond : s.length = 0 ∨ s.length < 6 ∨ s.length > 8
    · rw [if_pos hcond] at ht
      simp at ht
    · rw [if_neg hcond] at ht
      have hres : t = pyStrip (pyUpper s) := ((Except.ok.injEq _ _).mp ht).symm
      rw [hres, pyStrip_pyUpper]

/-- C10 witness: the accepted plate " abc123" (raw length 7) is stored
as its upper-cased trimmed form. -/
theorem C10_testigo : "ABC123" = pyUpper (pyStrip " abc123") :=
  (C10_validate_placa " abc123").2 "ABC123" (by rfl)
